import Mathlib

/-!
Shallow embedding of the audio-algebra repository (mono.py, stereo.py,
filters/equalizer.py).  Sample values (numpy floats) are idealised as exact
rationals; decibel-to-linear gain conversion lands in the reals.  Python
exceptions are modelled by an explicit error type carried in `Except`.
-/

set_option maxRecDepth 4000

/-- Kinds of Python exceptions the embedded code can raise.  `typeError`
also covers the CPython failure raised when `__init__` returns a non-None
value (as `MonoChannel.__init__` does on its `sampling_frequency <= 0`
branch, which says `return ValueError(...)` instead of `raise`).
`nameError` models use of an unbound local variable. -/
inductive Err where
  | typeError (msg : String) : Err
  | valueError (msg : String) : Err
  | nameError (msg : String) : Err
  deriving DecidableEq, Repr

/-- Embedding of a numpy array of samples: a shape together with the
row-major flat data. -/
structure NpArray where
  shape : List Nat
  data : List ℚ
  deriving DecidableEq, Repr

/-- View of a flat list of samples as the 1-dimensional numpy array holding
them. -/
def mkArr (data : List ℚ) : NpArray := ⟨[data.length], data⟩

/-- `MonoChannel`: a flat audio buffer plus a sampling frequency
(mono.py, class `MonoChannel`, attributes `audio` and
`sampling_frequency`). -/
structure MonoChannel where
  audio : List ℚ
  sampling_frequency : ℚ
  deriving DecidableEq, Repr

namespace MonoChannel

/-- Embedding of `MonoChannel._validate_audio` (mono.py lines 39-48):
reject a shape with more than one dimension larger than 1 (unless all
dimensions equal 1), otherwise flatten with `reshape(-1)`. -/
def validate_audio (a : NpArray) : Except Err (List ℚ) :=
  if (a.shape.countP (fun d => 1 < d)) > 1 ∧ ¬ (a.shape.all (fun d => d = 1)) then
    Except.error (Err.valueError "audio data shape cannot be interpreted as a mono channel sound")
  else
    Except.ok a.data

/-- Embedding of `MonoChannel.__init__` (mono.py lines 25-37) for a numpy
array argument.  The source line `return ValueError(...)` on the
`sampling_frequency <= 0` branch returns the exception object instead of
raising it, so CPython raises a TypeError saying init should return None;
that outcome is modelled as `Err.typeError`. -/
def init (audio : NpArray) (sampling_frequency : ℚ) : Except Err MonoChannel :=
  if sampling_frequency ≤ 0 then
    Except.error (Err.typeError "init should return None: sampling frequency must be a positive number")
  else do
    let a ← validate_audio audio
    Except.ok ⟨a, sampling_frequency⟩

/-- Embedding of `MonoChannel.__init__` (mono.py lines 25-37) for a number
argument: `size = audio * sampling_frequency` when `is_length` else
`audio`; then `np.zeros(size)`, which raises ValueError on a negative size
and TypeError on a non-integer size, both before the (broken, see `init`)
rate check. -/
def initNumber (audio : ℚ) (sampling_frequency : ℚ) (is_length : Bool) :
    Except Err MonoChannel :=
  let size : ℚ := if is_length then audio * sampling_frequency else audio
  if size < 0 then
    Except.error (Err.valueError "negative dimensions are not allowed")
  else if size.den ≠ 1 then
    Except.error (Err.typeError "float object cannot be interpreted as an integer")
  else if sampling_frequency ≤ 0 then
    Except.error (Err.typeError "init should return None: sampling frequency must be a positive number")
  else
    Except.ok ⟨List.replicate size.num.toNat 0, sampling_frequency⟩

/-- Embedding of the `size` property: number of samples. -/
def size (self : MonoChannel) : Nat := self.audio.length

/-- Embedding of the `length` property: duration in seconds,
`size / sampling_frequency`. -/
def length (self : MonoChannel) : ℚ := (self.size : ℚ) / self.sampling_frequency

end MonoChannel

/-- `StereoSound` (stereo.py): a left and a right `MonoChannel` plus the
shared sampling frequency recorded at construction. -/
structure StereoSound where
  left_channel : MonoChannel
  right_channel : MonoChannel
  sampling_frequency : ℚ
  deriving DecidableEq, Repr

namespace StereoSound

/-- Embedding of `StereoSound.__init__` (stereo.py lines 25-54) for the
tuple-of-channels argument: equal durations, then equal sampling
frequencies, are required. -/
def init (left right : MonoChannel) : Except Err StereoSound :=
  if left.length ≠ right.length then
    Except.error (Err.valueError "channels cannot have different lengths")
  else if left.sampling_frequency ≠ right.sampling_frequency then
    Except.error (Err.valueError "channels cannot have different sampling frequencies")
  else
    Except.ok ⟨left, right, left.sampling_frequency⟩

/-- Embedding of the stereo `size` property: the left channel sample
count. -/
def size (self : StereoSound) : Nat := self.left_channel.size

/-- Invariant every `StereoSound` built by `init` satisfies: both channels
carry the recorded sampling frequency and have the same sample count. -/
def WF (self : StereoSound) : Prop :=
  self.left_channel.sampling_frequency = self.sampling_frequency ∧
  self.right_channel.sampling_frequency = self.sampling_frequency ∧
  self.left_channel.size = self.right_channel.size

instance (s : StereoSound) : Decidable s.WF := by
  unfold WF; infer_instance

end StereoSound

namespace MonoChannel

/-- Embedding of `MonoChannel.to_stereo` (mono.py lines 161-162):
`StereoSound((self, self))`; the tuple constructor checks are trivially
satisfied by an identical pair, so no error case remains. -/
def to_stereo (self : MonoChannel) : StereoSound :=
  ⟨self, self, self.sampling_frequency⟩

/-- Embedding of `MonoChannel.__sub__` (merge, mono.py lines 86-106) for a
`MonoChannel` operand: rate check, then concatenation, rebuilt through the
constructor. -/
def subMono (self other : MonoChannel) : Except Err MonoChannel :=
  if self.sampling_frequency ≠ other.sampling_frequency then
    Except.error (Err.valueError "cannot merge two audios with different sampling frequencies")
  else
    init (mkArr (self.audio ++ other.audio)) self.sampling_frequency

/-- Embedding of `MonoChannel.__sub__` (merge, mono.py lines 86-106) for a
`StereoSound` operand: rate check, then the mono audio is prepended to each
channel and the pair is rebuilt as a `StereoSound`. -/
def subStereo (self : MonoChannel) (other : StereoSound) : Except Err StereoSound :=
  if self.sampling_frequency ≠ other.sampling_frequency then
    Except.error (Err.valueError "cannot merge two audios with different sampling frequencies")
  else do
    let left ← init (mkArr (self.audio ++ other.left_channel.audio)) self.sampling_frequency
    let right ← init (mkArr (self.audio ++ other.right_channel.audio)) self.sampling_frequency
    StereoSound.init left right

/-- Embedding of `MonoChannel.add_padding` (mono.py lines 150-158): build a
zero channel of `ammount` samples (`is_length` defaults to false here, so
`ammount` is a sample count) and merge it on the requested side. -/
def add_padding (self : MonoChannel) (ammount : ℚ)
    (is_right_padding : Bool) (is_lenght : Bool) : Except Err MonoChannel := do
  let padding ← initNumber ammount self.sampling_frequency is_lenght
  if is_right_padding then self.subMono padding else padding.subMono self

end MonoChannel

namespace StereoSound

/-- Embedding of `StereoSound.__sub__` (merge, stereo.py lines 75-89) for a
`MonoChannel` operand: rate check, promotion of the operand via
`to_stereo`, then channelwise merge. -/
def subMono (self : StereoSound) (other : MonoChannel) : Except Err StereoSound :=
  if self.sampling_frequency ≠ other.sampling_frequency then
    Except.error (Err.valueError "cannot merge two audios with different sampling frequencies")
  else do
    let stereo_other := other.to_stereo
    let left ← self.left_channel.subMono stereo_other.left_channel
    let right ← self.right_channel.subMono stereo_other.right_channel
    init left right

/-- Embedding of `StereoSound.__sub__` (merge, stereo.py lines 75-89) for a
`StereoSound` operand: after the rate check the source reads
`stereo_other.left_channel`, but `stereo_other` is only assigned on the
`MonoChannel` branch, so this path always raises NameError. -/
def subStereo (self other : StereoSound) : Except Err StereoSound :=
  if self.sampling_frequency ≠ other.sampling_frequency then
    Except.error (Err.valueError "cannot merge two audios with different sampling frequencies")
  else
    Except.error (Err.nameError "name stereo_other is not defined")

/-- Embedding of `StereoSound.add_padding` (stereo.py lines 128-136): build
a zero mono channel of `ammount` samples and merge it on the requested
side (the left-side case is `MonoChannel.__sub__` with a stereo operand). -/
def add_padding (self : StereoSound) (ammount : ℚ)
    (is_right_padding : Bool) (is_lenght : Bool) : Except Err StereoSound := do
  let padding ← MonoChannel.initNumber ammount self.sampling_frequency is_lenght
  if is_right_padding then self.subMono padding else padding.subStereo self

/-- Embedding of `StereoSound.__floordiv__` (overlap-add, stereo.py lines
91-117) for a `MonoChannel` operand.  On a sampling-frequency mismatch the
source builds the error message but never raises it, so no rate failure
occurs; both operands are right-padded with zeros to the larger sample
count, the padded mono operand is promoted, and the channelwise sums are
rebuilt at `self`'s sampling frequency. -/
def floordivMono (self : StereoSound) (other : MonoChannel) : Except Err StereoSound := do
  let bigger_size := max self.size other.size
  let padded_self ← self.add_padding ((bigger_size : ℚ) - (self.size : ℚ)) true false
  let po ← other.add_padding ((bigger_size : ℚ) - (other.size : ℚ)) true false
  let padded_other := po.to_stereo
  let left ← MonoChannel.init
    (mkArr (List.zipWith (· + ·) padded_self.left_channel.audio padded_other.left_channel.audio))
    self.sampling_frequency
  let right ← MonoChannel.init
    (mkArr (List.zipWith (· + ·) padded_self.right_channel.audio padded_other.right_channel.audio))
    self.sampling_frequency
  init left right

/-- Embedding of `StereoSound.__floordiv__` (overlap-add, stereo.py lines
91-117) for a `StereoSound` operand; as in `floordivMono`, the
mismatched-rate message is built but never raised in the source. -/
def floordivStereo (self other : StereoSound) : Except Err StereoSound := do
  let bigger_size := max self.size other.size
  let padded_self ← self.add_padding ((bigger_size : ℚ) - (self.size : ℚ)) true false
  let padded_other ← other.add_padding ((bigger_size : ℚ) - (other.size : ℚ)) true false
  let left ← MonoChannel.init
    (mkArr (List.zipWith (· + ·) padded_self.left_channel.audio padded_other.left_channel.audio))
    self.sampling_frequency
  let right ← MonoChannel.init
    (mkArr (List.zipWith (· + ·) padded_self.right_channel.audio padded_other.right_channel.audio))
    self.sampling_frequency
  init left right

/-- Embedding of `StereoSound.to_mono` (stereo.py lines 138-142):
elementwise average of the two channels, rebuilt through the `MonoChannel`
constructor at the stereo sampling frequency. -/
def to_mono (self : StereoSound) : Except Err MonoChannel :=
  MonoChannel.init
    (mkArr (List.zipWith (fun a b => (a + b) / 2)
      self.left_channel.audio self.right_channel.audio))
    self.sampling_frequency

end StereoSound

namespace MonoChannel

/-- Embedding of `MonoChannel.__floordiv__` (overlap-add, mono.py lines
114-141) for a `MonoChannel` operand.  On a sampling-frequency mismatch the
source builds the error message but never raises it, so no rate failure
occurs; both operands are right-padded with zeros to the larger sample
count and the elementwise sum is rebuilt at `self`'s sampling frequency. -/
def floordivMono (self other : MonoChannel) : Except Err MonoChannel := do
  let bigger_size := max self.size other.size
  let padded_self ← self.add_padding ((bigger_size : ℚ) - (self.size : ℚ)) true false
  let padded_other ← other.add_padding ((bigger_size : ℚ) - (other.size : ℚ)) true false
  init (mkArr (List.zipWith (· + ·) padded_self.audio padded_other.audio))
    self.sampling_frequency

/-- Embedding of `MonoChannel.__floordiv__` (overlap-add, mono.py lines
114-141) for a `StereoSound` operand; as in `floordivMono`, the
mismatched-rate message is built but never raised in the source.  Each
stereo channel is padded (via `StereoSound.add_padding`) and summed with
the padded mono audio. -/
def floordivStereo (self : MonoChannel) (other : StereoSound) : Except Err StereoSound := do
  let bigger_size := max self.size other.size
  let padded_self ← self.add_padding ((bigger_size : ℚ) - (self.size : ℚ)) true false
  let padded_other ← other.add_padding ((bigger_size : ℚ) - (other.size : ℚ)) true false
  let left ← init (mkArr (List.zipWith (· + ·) padded_self.audio padded_other.left_channel.audio))
    self.sampling_frequency
  let right ← init (mkArr (List.zipWith (· + ·) padded_self.audio padded_other.right_channel.audio))
    self.sampling_frequency
  StereoSound.init left right

end MonoChannel

/-- Default tap count for the equalizer (filters/equalizer.py,
`DEFAULT_NUMTAPS = 71`). -/
def DEFAULT_NUMTAPS : ℤ := 71

/-- Decibel-to-linear power conversion, `np.power(10, gain_db / 10)`
(filters/equalizer.py line 18), idealised over the reals. -/
noncomputable def db_to_linear (db : ℚ) : ℝ := (10 : ℝ) ^ ((db : ℝ) / 10)

/-- `Equalizer` (filters/equalizer.py): dataclass fields `numtaps`, `gain`
(the linear form, the only gain stored) and `frequencies`. -/
structure Equalizer where
  numtaps : ℤ
  gain : List ℝ
  frequencies : List ℚ

namespace Equalizer

/-- Pairwise nondecreasing test on a list of rationals; a numpy array
satisfies `np.all(a == np.sort(a))` exactly when it is nondecreasing. -/
def nondecreasing : List ℚ → Bool
  | [] => true
  | [_] => true
  | a :: b :: rest => decide (a ≤ b) && nondecreasing (b :: rest)

/-- Embedding of `Equalizer._validade_frequencies` (filters/equalizer.py
lines 24-31): at least two frequencies, first one 0, nondecreasing (the
source compares the array with its `np.sort`, equivalent to the pairwise
`nondecreasing` test). -/
def validade_frequencies (frequencies : List ℚ) : Except Err Unit :=
  if frequencies.length < 2 then
    Except.error (Err.valueError "frequency array must have at least two frequencies")
  else if frequencies.head? ≠ some 0 then
    Except.error (Err.valueError "frequency array must start with 0")
  else if ¬ nondecreasing frequencies then
    Except.error (Err.valueError "frequency array must be nondecreasing")
  else
    Except.ok ()

/-- Embedding of `Equalizer.__init__` (filters/equalizer.py lines 14-22):
store `numtaps` unvalidated, convert the decibel gains to linear once,
validate the frequency array, then require equal array sizes.  There is no
check on `numtaps` anywhere in the source. -/
noncomputable def init (frequencies : List ℚ) (gain_db : List ℚ) (numtaps : ℤ) :
    Except Err Equalizer :=
  let gain := gain_db.map db_to_linear
  match validade_frequencies frequencies with
  | Except.error e => Except.error e
  | Except.ok _ =>
    if frequencies.length ≠ gain.length then
      Except.error (Err.valueError "gain and frequency arrays must have the same size")
    else
      Except.ok ⟨numtaps, gain, frequencies⟩

end Equalizer

/-! Helper lemmas about the embedded operations. -/

/-- Reduction of a successful step of the `Except` monad, used when
unfolding the embedded operations. -/
theorem ok_bind {α β : Type} (x : α) (f : α → Except Err β) :
    ((Except.ok x : Except Err α) >>= f) = f x := rfl

namespace MonoChannel

theorem init_mkArr (data : List ℚ) (fs : ℚ) (h : 0 < fs) :
    init (mkArr data) fs = Except.ok ⟨data, fs⟩ := by
  have hc : (mkArr data).shape.countP (fun d => 1 < d) ≤ 1 := by
    simpa [mkArr] using List.countP_le_length (l := [data.length]) (p := fun d => 1 < d)
  rw [init, if_neg (not_le.mpr h)]
  rw [validate_audio, if_neg (by simp; omega)]
  rfl

theorem initNumber_natCast (k : ℕ) (fs : ℚ) (h : 0 < fs) :
    initNumber (k : ℚ) fs false = Except.ok ⟨List.replicate k 0, fs⟩ := by
  rw [initNumber]
  simp only [if_neg (Bool.false_ne_true), Bool.false_eq_true, if_false]
  rw [if_neg (not_lt.mpr (by positivity))]
  rw [if_neg (by simp [Rat.den_natCast])]
  rw [if_neg (not_le.mpr h)]
  simp [Rat.num_natCast]

theorem subMono_appends (a b : MonoChannel)
    (hf : a.sampling_frequency = b.sampling_frequency) (h : 0 < a.sampling_frequency) :
    a.subMono b = Except.ok ⟨a.audio ++ b.audio, a.sampling_frequency⟩ := by
  rw [subMono, if_neg (by simp [hf]), init_mkArr _ _ h]

theorem pad_right_nat (a : MonoChannel) (k : ℕ) (h : 0 < a.sampling_frequency) :
    a.add_padding (k : ℚ) true false =
      Except.ok ⟨a.audio ++ List.replicate k 0, a.sampling_frequency⟩ := by
  rw [add_padding, initNumber_natCast _ _ h]
  show a.subMono ⟨List.replicate k 0, a.sampling_frequency⟩ = _
  rw [subMono_appends a ⟨List.replicate k 0, a.sampling_frequency⟩ rfl h]

end MonoChannel

namespace StereoSound

theorem subMono_promotes (s : StereoSound) (c : MonoChannel) (hwf : s.WF)
    (h : 0 < s.sampling_frequency) (hc : s.sampling_frequency = c.sampling_frequency) :
    s.subMono c = Except.ok
      ⟨⟨s.left_channel.audio ++ c.audio, s.sampling_frequency⟩,
       ⟨s.right_channel.audio ++ c.audio, s.sampling_frequency⟩,
       s.sampling_frequency⟩ := by
  obtain ⟨h1, h2, h3⟩ := hwf
  have h3' : s.left_channel.audio.length = s.right_channel.audio.length := h3
  rw [subMono, if_neg (by simp [hc])]
  show (s.left_channel.subMono c >>= fun left =>
    s.right_channel.subMono c >>= fun right => init left right) = _
  rw [MonoChannel.subMono_appends s.left_channel c (h1.trans hc) (h.trans_eq h1.symm), ok_bind,
      MonoChannel.subMono_appends s.right_channel c (h2.trans hc) (h.trans_eq h2.symm), ok_bind,
      init]
  rw [if_neg (by simp [MonoChannel.length, MonoChannel.size, h1, h2, h3'])]
  rw [if_neg (by simp [h1, h2])]
  rw [h1, h2]

theorem stereo_pad_right_nat (s : StereoSound) (k : ℕ) (hwf : s.WF)
    (h : 0 < s.sampling_frequency) :
    s.add_padding (k : ℚ) true false =
      Except.ok ⟨⟨s.left_channel.audio ++ List.replicate k 0, s.sampling_frequency⟩,
        ⟨s.right_channel.audio ++ List.replicate k 0, s.sampling_frequency⟩,
        s.sampling_frequency⟩ := by
  rw [add_padding, MonoChannel.initNumber_natCast _ _ h, ok_bind]
  show s.subMono ⟨List.replicate k 0, s.sampling_frequency⟩ = _
  rw [subMono_promotes s ⟨List.replicate k 0, s.sampling_frequency⟩ hwf h rfl]

end StereoSound

theorem MonoChannel.overlap_mono_mono_eq (a b : MonoChannel)
    (ha : 0 < a.sampling_frequency) (hb : 0 < b.sampling_frequency) :
    a.floordivMono b = Except.ok
      ⟨List.zipWith (· + ·)
        (a.audio ++ List.replicate (max a.size b.size - a.size) 0)
        (b.audio ++ List.replicate (max a.size b.size - b.size) 0),
       a.sampling_frequency⟩ := by
  simp only [floordivMono]
  rw [(Nat.cast_sub (Nat.le_max_left a.size b.size)).symm,
      (Nat.cast_sub (Nat.le_max_right a.size b.size)).symm,
      a.pad_right_nat _ ha, ok_bind,
      b.pad_right_nat _ hb, ok_bind,
      init_mkArr _ _ ha]

theorem MonoChannel.overlap_mono_stereo_eq (a : MonoChannel) (s : StereoSound) (hwf : s.WF)
    (ha : 0 < a.sampling_frequency) (hs : 0 < s.sampling_frequency) :
    a.floordivStereo s = Except.ok
      ⟨⟨List.zipWith (· + ·)
          (a.audio ++ List.replicate (max a.size s.size - a.size) 0)
          (s.left_channel.audio ++ List.replicate (max a.size s.size - s.size) 0),
        a.sampling_frequency⟩,
       ⟨List.zipWith (· + ·)
          (a.audio ++ List.replicate (max a.size s.size - a.size) 0)
          (s.right_channel.audio ++ List.replicate (max a.size s.size - s.size) 0),
        a.sampling_frequency⟩,
       a.sampling_frequency⟩ := by
  have h3' : s.left_channel.audio.length = s.right_channel.audio.length := hwf.2.2
  simp only [floordivStereo]
  rw [(Nat.cast_sub (Nat.le_max_left a.size s.size)).symm,
      (Nat.cast_sub (Nat.le_max_right a.size s.size)).symm,
      a.pad_right_nat _ ha, ok_bind,
      s.stereo_pad_right_nat _ hwf hs, ok_bind,
      init_mkArr _ _ ha, ok_bind, init_mkArr _ _ ha, ok_bind,
      StereoSound.init]
  rw [if_neg (by simp [MonoChannel.length, MonoChannel.size, h3'])]
  rw [if_neg (by simp)]

theorem StereoSound.overlap_stereo_mono_eq (s : StereoSound) (c : MonoChannel) (hwf : s.WF)
    (hs : 0 < s.sampling_frequency) (hc : 0 < c.sampling_frequency) :
    s.floordivMono c = Except.ok
      ⟨⟨List.zipWith (· + ·)
          (s.left_channel.audio ++ List.replicate (max s.size c.size - s.size) 0)
          (c.audio ++ List.replicate (max s.size c.size - c.size) 0),
        s.sampling_frequency⟩,
       ⟨List.zipWith (· + ·)
          (s.right_channel.audio ++ List.replicate (max s.size c.size - s.size) 0)
          (c.audio ++ List.replicate (max s.size c.size - c.size) 0),
        s.sampling_frequency⟩,
       s.sampling_frequency⟩ := by
  have h3' : s.left_channel.audio.length = s.right_channel.audio.length := hwf.2.2
  simp only [floordivMono]
  rw [(Nat.cast_sub (Nat.le_max_left s.size c.size)).symm,
      (Nat.cast_sub (Nat.le_max_right s.size c.size)).symm,
      s.stereo_pad_right_nat _ hwf hs, ok_bind,
      c.pad_right_nat _ hc, ok_bind]
  simp only [MonoChannel.to_stereo]
  rw [MonoChannel.init_mkArr _ _ hs, ok_bind, MonoChannel.init_mkArr _ _ hs, ok_bind, init]
  rw [if_neg (by simp [MonoChannel.length, MonoChannel.size, h3'])]
  rw [if_neg (by simp)]

theorem StereoSound.overlap_stereo_stereo_eq (s t : StereoSound) (hws : s.WF) (hwt : t.WF)
    (hs : 0 < s.sampling_frequency) (ht : 0 < t.sampling_frequency) :
    s.floordivStereo t = Except.ok
      ⟨⟨List.zipWith (· + ·)
          (s.left_channel.audio ++ List.replicate (max s.size t.size - s.size) 0)
          (t.left_channel.audio ++ List.replicate (max s.size t.size - t.size) 0),
        s.sampling_frequency⟩,
       ⟨List.zipWith (· + ·)
          (s.right_channel.audio ++ List.replicate (max s.size t.size - s.size) 0)
          (t.right_channel.audio ++ List.replicate (max s.size t.size - t.size) 0),
        s.sampling_frequency⟩,
       s.sampling_frequency⟩ := by
  have hs3 : s.left_channel.audio.length = s.right_channel.audio.length := hws.2.2
  have ht3 : t.left_channel.audio.length = t.right_channel.audio.length := hwt.2.2
  simp only [floordivStereo]
  rw [(Nat.cast_sub (Nat.le_max_left s.size t.size)).symm,
      (Nat.cast_sub (Nat.le_max_right s.size t.size)).symm,
      s.stereo_pad_right_nat _ hws hs, ok_bind,
      t.stereo_pad_right_nat _ hwt ht, ok_bind,
      MonoChannel.init_mkArr _ _ hs, ok_bind, MonoChannel.init_mkArr _ _ hs, ok_bind, init]
  rw [if_neg (by simp [MonoChannel.length, MonoChannel.size, hs3, ht3])]
  rw [if_neg (by simp)]

/-- Evaluation rule relating the two forms of the number constructor: a
duration of `x` seconds at rate `fs` is the same request as a sample count
of `x * fs`. -/
theorem MonoChannel.initNumber_true_eq (x fs : ℚ) :
    MonoChannel.initNumber x fs true = MonoChannel.initNumber (x * fs) fs false := rfl

/-! Theorems settling the claims. -/

/-- C1: the claim says overlap-add on operands with different sampling
frequencies fails with a validation error at invocation.  In the source,
both `MonoChannel.__floordiv__` and `StereoSound.__floordiv__` build the
mismatched-rate message but never raise it, so in all four operand
combinations a result is produced instead: this theorem evaluates each
combination at mismatched rates and exhibits the returned value. -/
theorem C1_overlap_rate_mismatch_returns_result :
    MonoChannel.floordivMono ⟨[1], 1⟩ ⟨[2, 3], 2⟩ = Except.ok ⟨[3, 3], 1⟩ ∧
    MonoChannel.floordivStereo ⟨[1], 1⟩ ⟨⟨[2], 2⟩, ⟨[3], 2⟩, 2⟩ =
      Except.ok ⟨⟨[3], 1⟩, ⟨[4], 1⟩, 1⟩ ∧
    StereoSound.floordivMono ⟨⟨[2], 2⟩, ⟨[3], 2⟩, 2⟩ ⟨[1], 1⟩ =
      Except.ok ⟨⟨[3], 2⟩, ⟨[4], 2⟩, 2⟩ ∧
    StereoSound.floordivStereo ⟨⟨[1], 1⟩, ⟨[2], 1⟩, 1⟩ ⟨⟨[3], 2⟩, ⟨[4], 2⟩, 2⟩ =
      Except.ok ⟨⟨[4], 1⟩, ⟨[6], 1⟩, 1⟩ := by
  refine ⟨?_, ?_, ?_, ?_⟩
  · rw [MonoChannel.overlap_mono_mono_eq _ _ (by norm_num) (by norm_num)]
    norm_num [MonoChannel.size]
  · rw [MonoChannel.overlap_mono_stereo_eq _ _ ⟨rfl, rfl, rfl⟩ (by norm_num) (by norm_num)]
    norm_num [MonoChannel.size, StereoSound.size]
  · rw [StereoSound.overlap_stereo_mono_eq _ _ ⟨rfl, rfl, rfl⟩ (by norm_num) (by norm_num)]
    norm_num [MonoChannel.size, StereoSound.size]
  · rw [StereoSound.overlap_stereo_stereo_eq _ _ ⟨rfl, rfl, rfl⟩ ⟨rfl, rfl, rfl⟩
        (by norm_num) (by norm_num)]
    norm_num [MonoChannel.size, StereoSound.size]

/-- C2: the claim says merging two equal-rate stereos concatenates
channelwise.  In the source the Stereo-operand branch of
`StereoSound.__sub__` never assigns `stereo_other`, so it raises NameError;
only the promoted `MonoChannel`-operand branch behaves as described.  This
theorem evaluates both branches at equal rates. -/
theorem C2_stereo_merge_stereo_operand_name_error :
    StereoSound.subStereo ⟨⟨[1], 1⟩, ⟨[2], 1⟩, 1⟩ ⟨⟨[1], 1⟩, ⟨[2], 1⟩, 1⟩ =
      Except.error (Err.nameError "name stereo_other is not defined") ∧
    StereoSound.subMono ⟨⟨[1], 1⟩, ⟨[2], 1⟩, 1⟩ ⟨[3], 1⟩ =
      Except.ok ⟨⟨[1, 3], 1⟩, ⟨[2, 3], 1⟩, 1⟩ := by
  refine ⟨rfl, ?_⟩
  rw [StereoSound.subMono_promotes _ _ ⟨rfl, rfl, rfl⟩ (by norm_num) rfl]
  rfl

/-- C3 counterexample: the claim says `numtaps = 70` is rejected with a
validation error, but `Equalizer.__init__` stores `numtaps` without any
check, so construction with 70 taps succeeds. -/
theorem C3_counterexample_numtaps_70_accepted :
    Equalizer.init [0, 100] [0, 0] 70 = Except.ok ⟨70, [1, 1], [0, 100]⟩ := by
  have h0 : db_to_linear 0 = 1 := by
    rw [db_to_linear]; norm_num
  unfold Equalizer.init
  rw [show Equalizer.validade_frequencies [0, 100] = Except.ok () from rfl]
  simp [h0]

/-- C3 amended: constructing an `Equalizer` never validates `numtaps`; any
integer tap count, even or odd, positive or not, is accepted and stored
as-is once the frequency and gain arrays pass their checks. -/
theorem C3_equalizer_numtaps_unvalidated (numtaps : ℤ) :
    Equalizer.init [0, 100] [0, 0] numtaps = Except.ok ⟨numtaps, [1, 1], [0, 100]⟩ := by
  have h0 : db_to_linear 0 = 1 := by
    rw [db_to_linear]; norm_num
  unfold Equalizer.init
  rw [show Equalizer.validade_frequencies [0, 100] = Except.ok () from rfl]
  simp [h0]

/-- Witness for the amended C3 at an arbitrary even tap count. -/
theorem C3_witness :
    Equalizer.init [0, 100] [0, 0] 8 = Except.ok ⟨8, [1, 1], [0, 100]⟩ :=
  C3_equalizer_numtaps_unvalidated 8

/-- C4: the claim says a non-positive sample rate fails construction with
a validation error.  The source line is `return ValueError(...)`, not
`raise`, so CPython raises TypeError (init should return None) instead:
construction still fails immediately for every buffer, but with the wrong
exception class. -/
theorem C4_nonpositive_rate_fails_with_type_error (a : NpArray) (fs : ℚ) (h : fs ≤ 0) :
    MonoChannel.init a fs = Except.error (Err.typeError
      "init should return None: sampling frequency must be a positive number") := by
  rw [MonoChannel.init, if_pos h]

/-- Witness for C4 at rate 0 and a one-sample buffer. -/
theorem C4_witness :
    MonoChannel.init ⟨[1], [1]⟩ 0 = Except.error (Err.typeError
      "init should return None: sampling frequency must be a positive number") :=
  C4_nonpositive_rate_fails_with_type_error ⟨[1], [1]⟩ 0 (by decide)

/-- C5: for equal-rate channels, merge concatenates in operand order, so
its sample count is the sum of the operand counts, and overlap-add has the
sample count of the longer operand. -/
theorem C5_merge_and_overlap_length_laws (a b : MonoChannel)
    (hf : a.sampling_frequency = b.sampling_frequency) (h : 0 < a.sampling_frequency) :
    (a.subMono b).map MonoChannel.audio = Except.ok (a.audio ++ b.audio) ∧
    (a.subMono b).map MonoChannel.size = Except.ok (a.size + b.size) ∧
    (a.floordivMono b).map MonoChannel.size = Except.ok (max a.size b.size) := by
  have hb : 0 < b.sampling_frequency := hf ▸ h
  rw [a.subMono_appends b hf h, a.overlap_mono_mono_eq b h hb]
  refine ⟨rfl, ?_, ?_⟩
  · simp [Except.map, MonoChannel.size]
  · simp [Except.map, MonoChannel.size, List.length_zipWith]

/-- Witness for C5 on the spec's concrete example channels. -/
theorem C5_witness :
    (MonoChannel.subMono ⟨[1, 2, 3], 100⟩ ⟨[4, 5], 100⟩).map MonoChannel.audio =
      Except.ok ([1, 2, 3] ++ [4, 5]) ∧
    (MonoChannel.subMono ⟨[1, 2, 3], 100⟩ ⟨[4, 5], 100⟩).map MonoChannel.size =
      Except.ok (MonoChannel.size ⟨[1, 2, 3], 100⟩ + MonoChannel.size ⟨[4, 5], 100⟩) ∧
    (MonoChannel.floordivMono ⟨[1, 2, 3], 100⟩ ⟨[4, 5], 100⟩).map MonoChannel.size =
      Except.ok (max (MonoChannel.size ⟨[1, 2, 3], 100⟩) (MonoChannel.size ⟨[4, 5], 100⟩)) :=
  C5_merge_and_overlap_length_laws ⟨[1, 2, 3], 100⟩ ⟨[4, 5], 100⟩ rfl (by norm_num)

/-- C6 counterexample: the claim says the number-argument constructor
invoked with rate 2 and length 3 yields 3 zero samples; with the default
`is_length = True` the source computes `size = 3 * 2` and yields 6. -/
theorem C6_counterexample_default_length_scaled_by_rate :
    MonoChannel.initNumber 3 2 true = Except.ok ⟨List.replicate 6 0, 2⟩ ∧
    (MonoChannel.initNumber 3 2 true).map MonoChannel.size ≠ Except.ok 3 := by
  have h : MonoChannel.initNumber 3 2 true = Except.ok ⟨List.replicate 6 0, 2⟩ := by
    rw [MonoChannel.initNumber_true_eq]
    rw [show (3 : ℚ) * 2 = ((6 : ℕ) : ℚ) by norm_num]
    exact MonoChannel.initNumber_natCast 6 2 (by norm_num)
  refine ⟨h, ?_⟩
  rw [h]
  simp [Except.map, MonoChannel.size]

/-- C6 amended: with `is_length = False` the number argument is a sample
count and the constructor yields exactly `n` zero samples at rate `r`; with
the default `is_length = True` it is a duration in seconds and the
constructor yields `n * r` zero samples (whenever that product is a natural
number). -/
theorem C6_zeros_constructor_sample_counts (n : ℕ) (r : ℚ) (h : 0 < r) :
    MonoChannel.initNumber (n : ℚ) r false = Except.ok ⟨List.replicate n 0, r⟩ ∧
    ∀ m : ℕ, (n : ℚ) * r = (m : ℚ) →
      MonoChannel.initNumber (n : ℚ) r true = Except.ok ⟨List.replicate m 0, r⟩ := by
  refine ⟨MonoChannel.initNumber_natCast n r h, fun m hm => ?_⟩
  rw [MonoChannel.initNumber_true_eq, hm]
  exact MonoChannel.initNumber_natCast m r h

/-- Witness for C6 at rate 2 and length 3. -/
theorem C6_witness :
    MonoChannel.initNumber ((3 : ℕ) : ℚ) 2 false = Except.ok ⟨List.replicate 3 0, 2⟩ ∧
    MonoChannel.initNumber ((3 : ℕ) : ℚ) 2 true = Except.ok ⟨List.replicate 6 0, 2⟩ := by
  have h := C6_zeros_constructor_sample_counts 3 2 (by norm_num)
  exact ⟨h.1, h.2 6 (by norm_num)⟩

/-- C7: the equalizer converts decibel gain to a linear power ratio via
`10 ^ (dB / 10)` once at construction and stores only the linear form: with
frequencies `[0, 100]` and decibel gains `[0, 0]` the stored gain is
`[1, 1]`. -/
theorem C7_gain_db_converted_once_to_linear :
    Equalizer.init [0, 100] [0, 0] DEFAULT_NUMTAPS =
      Except.ok ⟨DEFAULT_NUMTAPS, [1, 1], [0, 100]⟩ := by
  have h0 : db_to_linear 0 = 1 := by
    rw [db_to_linear]; norm_num
  unfold Equalizer.init
  rw [show Equalizer.validade_frequencies [0, 100] = Except.ok () from rfl]
  simp [h0]

/-- C8: building a stereo from the pair `(a, a)` succeeds and its
mono-averaged signal `(left + right) / 2` is `a` again. -/
theorem C8_mono_round_trip (a : MonoChannel) (h : 0 < a.sampling_frequency) :
    StereoSound.init a a = Except.ok ⟨a, a, a.sampling_frequency⟩ ∧
    StereoSound.to_mono ⟨a, a, a.sampling_frequency⟩ = Except.ok a := by
  constructor
  · rw [StereoSound.init, if_neg (by simp), if_neg (by simp)]
  · show MonoChannel.init
      (mkArr (List.zipWith (fun x y => (x + y) / 2) a.audio a.audio)) a.sampling_frequency =
      Except.ok a
    rw [List.zipWith_same]
    rw [show (fun x : ℚ => (x + x) / 2) = fun x : ℚ => x from funext fun x => by ring]
    rw [List.map_id']
    exact MonoChannel.init_mkArr a.audio _ h

/-- Witness for C8 on a two-sample channel. -/
theorem C8_witness :
    StereoSound.init ⟨[1, 2], 4⟩ ⟨[1, 2], 4⟩ =
      Except.ok ⟨⟨[1, 2], 4⟩, ⟨[1, 2], 4⟩, 4⟩ ∧
    StereoSound.to_mono ⟨⟨[1, 2], 4⟩, ⟨[1, 2], 4⟩, 4⟩ = Except.ok ⟨[1, 2], 4⟩ :=
  C8_mono_round_trip ⟨[1, 2], 4⟩ (by norm_num)

/-- C9: merging a mono channel with an equal-rate stereo succeeds and
yields the stereo whose channels are the mono audio followed by the
corresponding stereo channel audio. -/
theorem C9_mono_merge_stereo_accepted (c : MonoChannel) (s : StereoSound) (hwf : s.WF)
    (hf : c.sampling_frequency = s.sampling_frequency) (h : 0 < c.sampling_frequency) :
    c.subStereo s = Except.ok
      ⟨⟨c.audio ++ s.left_channel.audio, c.sampling_frequency⟩,
       ⟨c.audio ++ s.right_channel.audio, c.sampling_frequency⟩,
       c.sampling_frequency⟩ := by
  have h3' : s.left_channel.audio.length = s.right_channel.audio.length := hwf.2.2
  rw [MonoChannel.subStereo, if_neg (by simp [hf])]
  rw [MonoChannel.init_mkArr _ _ h, ok_bind, MonoChannel.init_mkArr _ _ h, ok_bind,
      StereoSound.init]
  rw [if_neg (by simp [MonoChannel.length, MonoChannel.size, h3'])]
  rw [if_neg (by simp)]

/-- Witness for C9 at rate 1. -/
theorem C9_witness :
    MonoChannel.subStereo ⟨[9], 1⟩ ⟨⟨[1], 1⟩, ⟨[2], 1⟩, 1⟩ =
      Except.ok ⟨⟨[9] ++ [1], 1⟩, ⟨[9] ++ [2], 1⟩, 1⟩ :=
  C9_mono_merge_stereo_accepted ⟨[9], 1⟩ ⟨⟨[1], 1⟩, ⟨[2], 1⟩, 1⟩ ⟨rfl, rfl, rfl⟩ rfl
    (by norm_num)

/-- C10: overlap-add commutes for every equal-rate operand combination:
mono with mono, mono with stereo (in either order, yielding the same
stereo), and stereo with stereo. -/
theorem C10_overlap_add_commutes (a b : MonoChannel) (s t : StereoSound)
    (hws : s.WF) (hwt : t.WF)
    (hab : a.sampling_frequency = b.sampling_frequency)
    (has : a.sampling_frequency = s.sampling_frequency)
    (hst : s.sampling_frequency = t.sampling_frequency)
    (h : 0 < a.sampling_frequency) :
    a.floordivMono b = b.floordivMono a ∧
    a.floordivStereo s = s.floordivMono a ∧
    s.floordivStereo t = t.floordivStereo s := by
  have hb : 0 < b.sampling_frequency := hab ▸ h
  have hs : 0 < s.sampling_frequency := has ▸ h
  have ht : 0 < t.sampling_frequency := hst ▸ hs
  refine ⟨?_, ?_, ?_⟩
  · rw [a.overlap_mono_mono_eq b h hb, b.overlap_mono_mono_eq a hb h, max_comm b.size a.size, ← hab]
    simp only [Except.ok.injEq, MonoChannel.mk.injEq]
    exact ⟨List.zipWith_comm_of_comm _ (fun x y => add_comm x y) _ _, trivial⟩
  · rw [MonoChannel.overlap_mono_stereo_eq a s hws h hs, StereoSound.overlap_stereo_mono_eq s a hws hs h,
        max_comm s.size a.size, ← has]
    simp only [Except.ok.injEq, StereoSound.mk.injEq, MonoChannel.mk.injEq]
    exact ⟨⟨List.zipWith_comm_of_comm _ (fun x y => add_comm x y) _ _, trivial⟩,
           ⟨List.zipWith_comm_of_comm _ (fun x y => add_comm x y) _ _, trivial⟩, trivial⟩
  · rw [StereoSound.overlap_stereo_stereo_eq s t hws hwt hs ht,
        StereoSound.overlap_stereo_stereo_eq t s hwt hws ht hs, max_comm t.size s.size, ← hst]
    simp only [Except.ok.injEq, StereoSound.mk.injEq, MonoChannel.mk.injEq]
    exact ⟨⟨List.zipWith_comm_of_comm _ (fun x y => add_comm x y) _ _, trivial⟩,
           ⟨List.zipWith_comm_of_comm _ (fun x y => add_comm x y) _ _, trivial⟩, trivial⟩

/-- Witness for C10 at rate 1 with channels of distinct lengths. -/
theorem C10_witness :
    MonoChannel.floordivMono ⟨[1], 1⟩ ⟨[2, 3], 1⟩ =
      MonoChannel.floordivMono ⟨[2, 3], 1⟩ ⟨[1], 1⟩ ∧
    MonoChannel.floordivStereo ⟨[1], 1⟩ ⟨⟨[5], 1⟩, ⟨[6], 1⟩, 1⟩ =
      StereoSound.floordivMono ⟨⟨[5], 1⟩, ⟨[6], 1⟩, 1⟩ ⟨[1], 1⟩ ∧
    StereoSound.floordivStereo ⟨⟨[5], 1⟩, ⟨[6], 1⟩, 1⟩ ⟨⟨[7, 8], 1⟩, ⟨[9, 10], 1⟩, 1⟩ =
      StereoSound.floordivStereo ⟨⟨[7, 8], 1⟩, ⟨[9, 10], 1⟩, 1⟩ ⟨⟨[5], 1⟩, ⟨[6], 1⟩, 1⟩ :=
  C10_overlap_add_commutes ⟨[1], 1⟩ ⟨[2, 3], 1⟩ ⟨⟨[5], 1⟩, ⟨[6], 1⟩, 1⟩
    ⟨⟨[7, 8], 1⟩, ⟨[9, 10], 1⟩, 1⟩ ⟨rfl, rfl, rfl⟩ ⟨rfl, rfl, rfl⟩ rfl rfl rfl (by norm_num)
